import Mathlib

/-!
Shallow embedding of the `CloudDatabase` class from `src/main/main.ts`
(the Resilient Remote Connection Manager): connection lifecycle,
liveness probing, heartbeat, reconnection coordination and the
retry-wrapped query executor.

Modelling conventions:
* Pools are identified by natural-number ids handed out by a counter.
  `openPools` records every pool that was created by `mysql.createPool`
  and not yet shut down by `pool.end()`, so connection leaks are visible.
* The outcome of each asynchronous primitive is supplied by an oracle
  `Env`: `probe n` is the outcome of the n-th connection
  acquisition/`SELECT 1` round trip, `op n` the outcome of the n-th
  invocation of a caller-supplied query operation.  `otherFlag`/`otherPool`
  describe the interleaved behaviour of a concurrent reconnection attempt
  observed by the wait-poll loop of `ensureConnectionValid`.
* Every `await` of the source is recorded as an `Event` carrying the
  explicit timeout the source attaches to it (`none` when the source has
  no `Promise.race`/timeout around that suspension point).
* Errors are strings, as in the source, where retry classification is done
  by substring matching on the message (`isConnErr`).
-/

/-- Substring containment on strings, via list infixes. -/
def containsSub (s pat : String) : Bool := decide (pat.toList <:+: s.toList)

/-- `src/main/main.ts` `executeQueryWithRetry`: an error is connection-class
iff its message contains one of these fragments. -/
def isConnErr (msg : String) : Bool :=
  containsSub msg "连接" || containsSub msg "timeout" ||
  containsSub msg "ECONNRESET" || containsSub msg "PROTOCOL_CONNECTION_LOST"

/-- `MySQLConfig` interface of `src/main/main.ts`. -/
structure MySQLConfig where
  host : String
  port : Nat
  database : String
  user : String
  password : String
deriving DecidableEq, Repr

/-- The target-identity comparison inlined in `CloudDatabase.connect`:
host, port, database and user are compared; the password is not. -/
def sameTarget (a b : MySQLConfig) : Bool :=
  a.host == b.host && a.port == b.port && a.database == b.database && a.user == b.user

/-- The mutable fields of the `CloudDatabase` singleton, plus bookkeeping:
`nextPoolId`/`nextHbId` are fresh-name counters, `openPools` the pools
created and not yet ended, `probeCount`/`opCount` the oracle cursors. -/
structure MState where
  pool : Option Nat
  config : Option MySQLConfig
  isReconnecting : Bool
  heartbeat : Option Nat
  nextPoolId : Nat
  nextHbId : Nat
  openPools : List Nat
  probeCount : Nat
  opCount : Nat
deriving DecidableEq, Repr

/-- The initial `CloudDatabase` state: nothing connected. -/
def initState : MState :=
  { pool := none, config := none, isReconnecting := false, heartbeat := none,
    nextPoolId := 0, nextHbId := 0, openPools := [], probeCount := 0, opCount := 0 }

/-- One observable effect of the manager.  The `timeoutMs` field records the
explicit timeout the source code attaches to that suspension point
(`none` when the `await` is not wrapped in a timeout race). -/
inductive Event where
  | createPool (id : Nat) (connectTimeoutMs : Nat)
  | endPool (id : Nat)
  | acquire (poolId : Nat) (timeoutMs : Option Nat)
  | ping (poolId : Nat) (timeoutMs : Option Nat)
  | opRun (idx : Nat) (timeoutMs : Option Nat)
  | sleep (ms : Nat)
deriving DecidableEq, Repr

/-- Oracle for the outcomes of the asynchronous primitives. -/
structure Env (α : Type) where
  probe : Nat → Bool
  op : Nat → Except String α
  otherFlag : Nat → Bool
  otherPool : Option Nat

/-- `HEARTBEAT_INTERVAL` constant of `CloudDatabase` (milliseconds). -/
def HEARTBEAT_INTERVAL : Nat := 60 * 1000

/-- `connectTimeout` option passed to `mysql.createPool` (milliseconds). -/
def connectTimeoutMs : Nat := 10000

/-- Error message thrown when no pool/config is present. -/
def notConnectedMsg : String := "MySQL 未连接，请先配置数据库连接"

/-- Error message thrown by `ensureConnectionValid` when its own reconnect
attempt fails. -/
def reconnectFailMsg : String := "数据库连接已断开，无法自动重连"

/-- Stand-in for the transport error rethrown by a failed `connect`; no
caller of `connect` inside the class inspects its text. -/
def transportErrMsg : String := "connect ECONNREFUSED"

/-- Fallback message of `executeQueryWithRetry` when no error was captured. -/
def queryFailMsg : String := "查询失败"

/-- Consume the next probe outcome from the oracle. -/
def takeProbe (env : Env α) (s : MState) : Bool × MState :=
  (env.probe s.probeCount, { s with probeCount := s.probeCount + 1 })

/-- Consume the next caller-operation outcome from the oracle. -/
def takeOp (env : Env α) (s : MState) : Except String α × MState :=
  (env.op s.opCount, { s with opCount := s.opCount + 1 })

/-- `CloudDatabase.stopHeartbeat`: clear the interval handle if set. -/
def stopHeartbeat (s : MState) : MState := { s with heartbeat := none }

/-- `CloudDatabase.startHeartbeat`: stop any running heartbeat, then
install a fresh interval handle. -/
def startHeartbeat (s : MState) : MState :=
  let s1 := stopHeartbeat s
  { s1 with heartbeat := some s1.nextHbId, nextHbId := s1.nextHbId + 1 }

/-- The tail of `CloudDatabase.connect` after the same-target fast path:
store the config, create a pool, then borrow/release one connection as a
creation-time probe; on probe failure end the pool, null it and rethrow. -/
def connectFresh (env : Env α) (s : MState) (cfg : MySQLConfig) :
    Except String Unit × MState × List Event :=
  let pid := s.nextPoolId
  let s1 := { s with config := some cfg, pool := some pid,
                     nextPoolId := pid + 1, openPools := pid :: s.openPools }
  let (ok, s2) := takeProbe env s1
  let t := [Event.createPool pid connectTimeoutMs, Event.acquire pid none]
  if ok then (.ok (), startHeartbeat s2, t)
  else (.error transportErrMsg,
        { s2 with pool := none, openPools := s2.openPools.erase pid },
        t ++ [Event.endPool pid])

/-- `CloudDatabase.connect`: if a pool exists for the same target, probe it
and return on success (ending it on probe failure); otherwise fall through
to `connectFresh`. -/
def connect (env : Env α) (s : MState) (cfg : MySQLConfig) :
    Except String Unit × MState × List Event :=
  match s.pool, s.config with
  | some p, some c =>
    if sameTarget c cfg then
      let (ok, s1) := takeProbe env s
      if ok then (.ok (), s1, [Event.acquire p none])
      else
        let s2 := { s1 with pool := none, openPools := s1.openPools.erase p }
        let (r, s3, t3) := connectFresh env s2 cfg
        (r, s3, Event.acquire p none :: Event.endPool p :: t3)
    else connectFresh env s cfg
  | _, _ => connectFresh env s cfg

/-- `CloudDatabase.disconnect`: stop the heartbeat, end the pool, clear
pool and config. -/
def disconnect (s : MState) : MState × List Event :=
  let s1 := stopHeartbeat s
  match s1.pool with
  | some p =>
    ({ s1 with pool := none, openPools := s1.openPools.erase p, config := none },
     [Event.endPool p])
  | none => ({ s1 with config := none }, [])

/-- The catch block of `CloudDatabase.performHeartbeat`: unless a
reconnection is already in flight, set the flag, end the pool, reconnect
with the current config, and stop the heartbeat if the reconnect failed. -/
def heartbeatReconnect (env : Env α) (s : MState) (cfg : MySQLConfig) :
    MState × List Event :=
  if s.isReconnecting then (s, [])
  else
    let s1 := { s with isReconnecting := true }
    let (s2, t2) :=
      match s1.pool with
      | some p => ({ s1 with pool := none, openPools := s1.openPools.erase p },
                   [Event.endPool p])
      | none => (s1, [])
    let (r, s3, t3) := connect env s2 cfg
    let s4 :=
      match r with
      | .ok _ => { s3 with isReconnecting := false }
      | .error _ => { stopHeartbeat s3 with isReconnecting := false }
    (s4, t2 ++ t3)

/-- `CloudDatabase.performHeartbeat`, one tick of the interval task: if pool
or config is missing, stop the heartbeat; otherwise acquire a connection
under a 5000 ms race and run `SELECT 1` (no race), falling into the
reconnect path on failure. -/
def performHeartbeat (env : Env α) (s : MState) : MState × List Event :=
  match s.pool, s.config with
  | some p, some cfg =>
    let (ok1, s1) := takeProbe env s
    if ok1 then
      let (ok2, s2) := takeProbe env s1
      if ok2 then (s2, [Event.acquire p (some 5000), Event.ping p none])
      else
        let (s3, t3) := heartbeatReconnect env s2 cfg
        (s3, Event.acquire p (some 5000) :: Event.ping p none :: t3)
    else
      let (s3, t3) := heartbeatReconnect env s1 cfg
      (s3, Event.acquire p (some 5000) :: t3)
  | _, _ => (stopHeartbeat s, [])

/-- The wait-poll loop of `ensureConnectionValid`:
`while (isReconnecting && retries < 20) sleep 100` — `flagAt k` is the
value of the flag observed at the k-th check; returns the number of
iterations slept. -/
def waitLoop (flagAt : Nat → Bool) : Nat → Nat → Nat
  | k, 0 => k
  | k, fuel + 1 => if flagAt k then waitLoop flagAt (k + 1) fuel else k

/-- The reconnect arm of `ensureConnectionValid`'s catch block (after the
wait-poll, or directly when no reconnection is in flight): set the flag,
stop the heartbeat, end the pool, reconnect with the stored config;
failure of that reconnect is reported as `reconnectFailMsg`. -/
def doReconnect (env : Env α) (s : MState) (t0 : List Event) :
    Except String Nat × MState × List Event :=
  let s1 := stopHeartbeat { s with isReconnecting := true }
  let (s2, t2) :=
    match s1.pool with
    | some p => ({ s1 with pool := none, openPools := s1.openPools.erase p },
                 [Event.endPool p])
    | none => (s1, [])
  match s2.config with
  | some cfg =>
    let (r, s3, t3) := connect env s2 cfg
    match r with
    | .error _ =>
      (.error reconnectFailMsg, { s3 with isReconnecting := false }, t0 ++ t2 ++ t3)
    | .ok _ =>
      let s4 := { s3 with isReconnecting := false }
      match s4.pool with
      | some p => (.ok p, s4, t0 ++ t2 ++ t3)
      | none => (.error notConnectedMsg, s4, t0 ++ t2 ++ t3)
  | none => (.error notConnectedMsg, { s2 with isReconnecting := false }, t0 ++ t2)

/-- The catch block of `ensureConnectionValid`: if another reconnection is
in flight, poll the flag every 100 ms for up to 20 iterations; if a pool
(and config) exists afterwards return it, otherwise fall through to
`doReconnect`. -/
def reconnectPath (env : Env α) (s : MState) (t0 : List Event) :
    Except String Nat × MState × List Event :=
  if s.isReconnecting then
    let k := waitLoop env.otherFlag 0 20
    let sW := { s with pool := env.otherPool, isReconnecting := env.otherFlag k }
    let tW := t0 ++ List.replicate k (Event.sleep 100)
    match sW.pool, sW.config with
    | some p, some _ => (.ok p, sW, tW)
    | _, _ => doReconnect env sW tW
  else doReconnect env s t0

/-- `CloudDatabase.ensureConnectionValid`: fail fast when pool or config is
null; otherwise acquire a connection under a 2000 ms race and run
`SELECT 1` under a 3000 ms race, entering `reconnectPath` on failure. -/
def ensureConnectionValid (env : Env α) (s : MState) :
    Except String Nat × MState × List Event :=
  match s.pool, s.config with
  | some p, some _ =>
    let (ok1, s1) := takeProbe env s
    if ok1 then
      let (ok2, s2) := takeProbe env s1
      if ok2 then (.ok p, s2, [Event.acquire p (some 2000), Event.ping p (some 3000)])
      else reconnectPath env s2 [Event.acquire p (some 2000), Event.ping p (some 3000)]
    else reconnectPath env s1 [Event.acquire p (some 2000)]
  | _, _ => (.error notConnectedMsg, s, [])

/-- One attempt of `executeQueryWithRetry`: validate the pool, then run the
caller-supplied operation (no timeout around it). -/
def attemptOnce (env : Env α) (s : MState) :
    Except String α × MState × List Event :=
  match ensureConnectionValid env s with
  | (.error e, s1, t1) => (.error e, s1, t1)
  | (.ok _, s1, t1) =>
    let (res, s2) := takeOp env s1
    (res, s2, t1 ++ [Event.opRun s1.opCount none])

/-- The `for (let i = 0; i <= retries; i++)` loop of
`executeQueryWithRetry`, with `fuel` the number of attempts remaining:
a connection-class error stops the heartbeat, ends the pool and — unless
this was the last attempt or no config is stored — sleeps 500 ms and
reconnects before looping; a logic-class error is rethrown at once. -/
def execAttempts (env : Env α) : Nat → Option String → MState →
    Except String α × MState × List Event
  | 0, lastErr, s => (.error (lastErr.getD queryFailMsg), s, [])
  | fuel + 1, _lastErr, s =>
    match attemptOnce env s with
    | (.ok v, s1, t1) => (.ok v, s1, t1)
    | (.error e, s1, t1) =>
      if isConnErr e then
        let (s2, t2) :=
          match s1.pool with
          | some p =>
            ({ stopHeartbeat s1 with pool := none, openPools := s1.openPools.erase p },
             [Event.endPool p])
          | none => (s1, [])
        match s2.config, fuel with
        | some cfg, _ + 1 =>
          let (_rc, s3, t3) := connect env s2 cfg
          let (r4, s4, t4) := execAttempts env fuel (some e) s3
          (r4, s4, t1 ++ t2 ++ Event.sleep 500 :: t3 ++ t4)
        | _, _ =>
          let (r4, s4, t4) := execAttempts env fuel (some e) s2
          (r4, s4, t1 ++ t2 ++ t4)
      else (.error e, s1, t1)

/-- `CloudDatabase.executeQueryWithRetry` with its `retries` parameter
(default 1 in the source). -/
def executeQueryWithRetry (env : Env α) (s : MState) (retries : Nat) :
    Except String α × MState × List Event :=
  execAttempts env (retries + 1) none s

/-- The public `execute` entry point: `executeQueryWithRetry` at the
default `retries = 1`. -/
def execute (env : Env α) (s : MState) : Except String α × MState × List Event :=
  executeQueryWithRetry env s 1

/-! ### Concrete fixtures used by witnesses and counterexamples -/

/-- A sample connection config. -/
def cfgA : MySQLConfig := ⟨"db1.example.com", 3306, "notes", "u", "pw"⟩

/-- A sample config for a different target (different host). -/
def cfgB : MySQLConfig := ⟨"db2.example.com", 3306, "notes", "u", "pw"⟩

/-- A config equal to `cfgA` except for the password. -/
def cfgA' : MySQLConfig := ⟨"db1.example.com", 3306, "notes", "u", "other"⟩

/-- A connected state: pool 0 open for `cfgA`, heartbeat 0 running. -/
def sConn : MState :=
  { pool := some 0, config := some cfgA, isReconnecting := false,
    heartbeat := some 0, nextPoolId := 1, nextHbId := 1, openPools := [0],
    probeCount := 0, opCount := 0 }

/-- Oracle where every probe succeeds and every operation returns 42. -/
def envAllOk : Env Nat :=
  ⟨fun _ => true, fun _ => .ok 42, fun _ => false, none⟩

/-- Oracle for the retry scenario: first operation dies with a
connection-reset, the second returns 7; all probes succeed. -/
def envRetry : Env Nat :=
  ⟨fun _ => true,
   fun n => if n == 0 then .error "read ECONNRESET" else .ok 7,
   fun _ => false, none⟩

/-- Oracle where operations fail with a constraint violation. -/
def envDup : Env Nat :=
  ⟨fun _ => true, fun _ => .error "Duplicate entry x for key PRIMARY",
   fun _ => false, none⟩

/-- Oracle where every probe fails. -/
def envFail : Env Nat :=
  ⟨fun _ => false, fun _ => .ok 0, fun _ => false, none⟩

/-- Oracle where the first probe fails and every later one succeeds. -/
def envFailThenOk : Env Nat :=
  ⟨fun n => n != 0, fun _ => .ok 0, fun _ => false, none⟩

/-- Oracle for the stale-heartbeat scenario: only the first probe (the
creation probe of the first `connect`) succeeds. -/
def envFirstOnly : Env Nat :=
  ⟨fun n => n == 0, fun _ => .ok 0, fun _ => false, none⟩

/-- A state in which another reconnection attempt is flagged in flight. -/
def sRec : MState :=
  { pool := some 0, config := some cfgA, isReconnecting := true,
    heartbeat := some 0, nextPoolId := 1, nextHbId := 1, openPools := [0],
    probeCount := 0, opCount := 0 }

/-- A second reconnecting-flagged state with distinct ids. -/
def sRec2 : MState :=
  { pool := some 5, config := some cfgB, isReconnecting := true,
    heartbeat := none, nextPoolId := 10, nextHbId := 20, openPools := [5],
    probeCount := 0, opCount := 0 }

/-- Oracle for the wait-poll scenario: the validity probe fails, the
concurrent reconnection holds the flag for one poll iteration and leaves
no pool behind; a later own-reconnect probe succeeds. -/
def envWaitNoPool : Env Nat :=
  ⟨fun n => n != 0, fun _ => .ok 1, fun k => k == 0, none⟩

/-- Like `envWaitNoPool`, but the concurrent reconnection leaves pool 7. -/
def envWaitPool7 : Env Nat :=
  ⟨fun n => n != 0, fun _ => .ok 1, fun k => k == 0, some 7⟩

/-- An event is guarded when the suspension it records carries an explicit
timeout. -/
def guarded : Event → Bool
  | .acquire _ t => t.isSome
  | .ping _ t => t.isSome
  | .opRun _ t => t.isSome
  | _ => true

/-- Bounding lemma for the wait-poll loop: it never runs longer than its
fuel allows. -/
theorem waitLoop_le (f : Nat → Bool) : ∀ k fuel, waitLoop f k fuel ≤ k + fuel
  | _, 0 => Nat.le_refl _
  | k, fuel + 1 => by
    simp only [waitLoop]
    split
    · have h := waitLoop_le f (k + 1) fuel
      omega
    · omega

/-- Claim C1: an `execute` (retries = 1) whose first operation invocation
fails with a connection-class error force-closes the pool, sleeps 500 ms,
reopens a pool from the stored config and runs the operation a second
time; when that second invocation succeeds the call returns its result,
with exactly 2 operation invocations in total. -/
theorem execute_conn_error_retried_once_then_succeeds (env : Env Nat) (p : Nat)
    (cfg : MySQLConfig) (m : String) (v : Nat) (rec : Bool) (hb : Option Nat)
    (np nh : Nat) (ops : List Nat)
    (hprobe : ∀ k, env.probe k = true)
    (hop0 : env.op 0 = .error m) (hm : isConnErr m = true)
    (hop1 : env.op 1 = .ok v) :
    execute env (MState.mk (some p) (some cfg) rec hb np nh ops 0 0) =
      (.ok v,
       MState.mk (some np) (some cfg) rec (some nh) (np + 1) (nh + 1)
         (np :: ops.erase p) 5 2,
       [Event.acquire p (some 2000), Event.ping p (some 3000), Event.opRun 0 none,
        Event.endPool p, Event.sleep 500,
        Event.createPool np connectTimeoutMs, Event.acquire np none,
        Event.acquire np (some 2000), Event.ping np (some 3000),
        Event.opRun 1 none]) := by
  simp [execute, executeQueryWithRetry, execAttempts, attemptOnce, ensureConnectionValid,
        takeProbe, takeOp, stopHeartbeat, startHeartbeat, connect, connectFresh,
        hprobe, hop0, hop1, hm]

/-- Witness for C1: the connection-reset retry scenario on concrete data. -/
theorem execute_conn_error_retried_once_then_succeeds_witness :
    execute envRetry sConn =
      (.ok 7, MState.mk (some 1) (some cfgA) false (some 1) 2 2 [1] 5 2,
       [Event.acquire 0 (some 2000), Event.ping 0 (some 3000), Event.opRun 0 none,
        Event.endPool 0, Event.sleep 500,
        Event.createPool 1 connectTimeoutMs, Event.acquire 1 none,
        Event.acquire 1 (some 2000), Event.ping 1 (some 3000),
        Event.opRun 1 none]) :=
  execute_conn_error_retried_once_then_succeeds envRetry 0 cfgA "read ECONNRESET" 7
    false (some 0) 1 1 [0] (fun _ => rfl) rfl (by decide) rfl

/-- Claim C2: an `execute` whose operation fails with a logic-class error
(message not matched by the connection-class check) rethrows that error
verbatim after exactly one operation invocation; the pool is neither
closed nor reopened and the state is untouched apart from the oracle
cursors. -/
theorem execute_logic_error_not_retried (env : Env Nat) (p : Nat)
    (cfg : MySQLConfig) (m : String) (rec : Bool) (hb : Option Nat)
    (np nh : Nat) (ops : List Nat)
    (hp0 : env.probe 0 = true) (hp1 : env.probe 1 = true)
    (hop : env.op 0 = .error m) (hm : isConnErr m = false) :
    execute env (MState.mk (some p) (some cfg) rec hb np nh ops 0 0) =
      (.error m, MState.mk (some p) (some cfg) rec hb np nh ops 2 1,
       [Event.acquire p (some 2000), Event.ping p (some 3000),
        Event.opRun 0 none]) := by
  simp [execute, executeQueryWithRetry, execAttempts, attemptOnce, ensureConnectionValid,
        takeProbe, takeOp, hp0, hp1, hop, hm]

/-- Witness for C2: a duplicate-key error is surfaced verbatim with one
operation invocation and no pool teardown. -/
theorem execute_logic_error_not_retried_witness :
    execute envDup sConn =
      (.error "Duplicate entry x for key PRIMARY",
       MState.mk (some 0) (some cfgA) false (some 0) 1 1 [0] 2 1,
       [Event.acquire 0 (some 2000), Event.ping 0 (some 3000),
        Event.opRun 0 none]) :=
  execute_logic_error_not_retried envDup 0 cfgA "Duplicate entry x for key PRIMARY"
    false (some 0) 1 1 [0] rfl rfl rfl (by decide)

/-- Claim C4: with no stored config (and no pool), `execute` fails with the
not-connected error while performing no network action at all: the state
is returned unchanged and the event trace is empty (no pool opened, no
probe, no operation invocation). -/
theorem execute_unconfigured_fails_without_network (env : Env Nat) (rec : Bool)
    (hb : Option Nat) (np nh : Nat) (ops : List Nat) (pc oc : Nat) :
    execute env (MState.mk none none rec hb np nh ops pc oc) =
      (.error notConnectedMsg, MState.mk none none rec hb np nh ops pc oc, []) :=
  rfl

/-- Witness for C4: `execute` on the initial state. -/
theorem execute_unconfigured_fails_without_network_witness :
    execute envAllOk initState = (.error notConnectedMsg, initState, []) :=
  execute_unconfigured_fails_without_network envAllOk false none 0 0 [] 0 0

/-- Claim C6: a second `connect` whose config agrees with the stored one on
host, port, database and user (password not compared) reuses the existing
pool when the liveness probe (borrow/release of one connection) succeeds:
no pool is created and the state is unchanged but for the probe cursor. -/
theorem connect_same_target_reuses_pool (env : Env Nat) (p : Nat)
    (cA cB : MySQLConfig) (rec : Bool) (hb : Option Nat) (np nh : Nat)
    (ops : List Nat) (pc oc : Nat)
    (hsame : sameTarget cA cB = true) (hp : env.probe pc = true) :
    connect env (MState.mk (some p) (some cA) rec hb np nh ops pc oc) cB =
      (.ok (), MState.mk (some p) (some cA) rec hb np nh ops (pc + 1) oc,
       [Event.acquire p none]) := by
  simp [connect, takeProbe, hsame, hp]

/-- Witness for C6: reconnecting to the same target with a different
password reuses pool 0 and creates nothing. -/
theorem connect_same_target_reuses_pool_witness :
    connect envAllOk sConn cfgA' =
      (.ok (), MState.mk (some 0) (some cfgA) false (some 0) 1 1 [0] 1 0,
       [Event.acquire 0 none]) :=
  connect_same_target_reuses_pool envAllOk 0 cfgA cfgA' false (some 0) 1 1 [0] 0 0
    (by decide) rfl

/-- Claim C10: when `connect` to a new target fails its creation-time
probe, the pool is torn down and left null but the stored config is not
rolled back: it remains the config of the failed attempt. -/
theorem connect_failure_keeps_attempted_config (env : Env Nat) (p : Nat)
    (cOld cNew : MySQLConfig) (rec : Bool) (hb : Option Nat) (np nh : Nat)
    (ops : List Nat) (pc oc : Nat)
    (hdiff : sameTarget cOld cNew = false) (hp : env.probe pc = false) :
    connect env (MState.mk (some p) (some cOld) rec hb np nh ops pc oc) cNew =
      (.error transportErrMsg,
       MState.mk none (some cNew) rec hb (np + 1) nh ops (pc + 1) oc,
       [Event.createPool np connectTimeoutMs, Event.acquire np none,
        Event.endPool np]) := by
  simp [connect, connectFresh, takeProbe, hdiff, hp]

/-- Witness for C10: after a failed connect to `cfgB` from a state
connected to `cfgA`, the stored config is `cfgB`, not `cfgA`. -/
theorem connect_failure_keeps_attempted_config_witness :
    connect envFail sConn cfgB =
      (.error transportErrMsg,
       MState.mk none (some cfgB) false (some 0) 2 1 [0] 1 0,
       [Event.createPool 1 connectTimeoutMs, Event.acquire 1 none,
        Event.endPool 1]) :=
  connect_failure_keeps_attempted_config envFail 0 cfgA cfgB false (some 0) 1 1 [0]
    0 0 (by decide) rfl

/-- Claim C3 (code bug): `connect(cfgA)` then `connect(cfgB)` with a
different target never ends the first pool — the second call's trace has
no `endPool` event and afterwards both pool 0 and pool 1 are open, so the
old pool is leaked rather than closed before the new one opens. -/
theorem connect_new_target_leaks_old_pool :
    connect envAllOk (connect envAllOk initState cfgA).2.1 cfgB =
      (.ok (), MState.mk (some 1) (some cfgB) false (some 1) 2 2 [1, 0] 2 0,
       [Event.createPool 1 connectTimeoutMs, Event.acquire 1 none]) :=
  rfl

/-- Claim C5, counterexample: with the reconnecting flag set, a failed
probe and no pool left after the wait-poll, `ensureConnectionValid` does
not fail — it starts its own reconnection (a `createPool` event appears)
and returns the new pool. -/
theorem ensureValid_wait_timeout_starts_own_reconnect_cex :
    ensureConnectionValid envWaitNoPool sRec =
      (.ok 1, MState.mk (some 1) (some cfgA) false (some 1) 2 2 [1, 0] 2 0,
       [Event.acquire 0 (some 2000), Event.sleep 100,
        Event.createPool 1 connectTimeoutMs, Event.acquire 1 none]) :=
  rfl

/-- Claim C5 as amended: when the reconnecting flag is set,
`ensureConnectionValid` polls in 100 ms steps for at most 20 iterations;
if a pool exists afterwards it is returned as-is; otherwise the caller
proceeds to run the reconnection itself — tearing down and reconnecting
with the stored config — returning the new pool on success and failing
only if that reconnect fails. -/
theorem ensureValid_wait_poll_amended (env : Env Nat) (p q : Nat)
    (cfg : MySQLConfig) (hb : Option Nat) (np nh : Nat) (ops : List Nat)
    (pc oc : Nat) :
    (env.probe pc = false → env.otherPool = some q →
      ensureConnectionValid env (MState.mk (some p) (some cfg) true hb np nh ops pc oc) =
        (.ok q,
         MState.mk (some q) (some cfg) (env.otherFlag (waitLoop env.otherFlag 0 20)) hb
           np nh ops (pc + 1) oc,
         Event.acquire p (some 2000) ::
           List.replicate (waitLoop env.otherFlag 0 20) (Event.sleep 100)))
    ∧ (env.probe pc = false → env.otherPool = none → env.probe (pc + 1) = true →
      ensureConnectionValid env (MState.mk (some p) (some cfg) true hb np nh ops pc oc) =
        (.ok np,
         MState.mk (some np) (some cfg) false (some nh) (np + 1) (nh + 1) (np :: ops)
           (pc + 2) oc,
         Event.acquire p (some 2000) ::
           (List.replicate (waitLoop env.otherFlag 0 20) (Event.sleep 100) ++
            [Event.createPool np connectTimeoutMs, Event.acquire np none])))
    ∧ (env.probe pc = false → env.otherPool = none → env.probe (pc + 1) = false →
      ensureConnectionValid env (MState.mk (some p) (some cfg) true hb np nh ops pc oc) =
        (.error reconnectFailMsg,
         MState.mk none (some cfg) false none (np + 1) nh ops (pc + 2) oc,
         Event.acquire p (some 2000) ::
           (List.replicate (waitLoop env.otherFlag 0 20) (Event.sleep 100) ++
            [Event.createPool np connectTimeoutMs, Event.acquire np none,
             Event.endPool np])))
    ∧ (∀ f : Nat → Bool, waitLoop f 0 20 ≤ 20) := by
  refine ⟨?_, ?_, ?_, fun f => waitLoop_le f 0 20⟩
  · intro h1 h2
    simp [ensureConnectionValid, reconnectPath, takeProbe, h1, h2]
  · intro h1 h2 h3
    simp [ensureConnectionValid, reconnectPath, doReconnect, takeProbe, stopHeartbeat,
          startHeartbeat, connect, connectFresh, h1, h2, h3]
  · intro h1 h2 h3
    simp [ensureConnectionValid, reconnectPath, doReconnect, takeProbe, stopHeartbeat,
          startHeartbeat, connect, connectFresh, h1, h2, h3]

/-- Witness for the amended C5: the three wait-poll outcomes on concrete
states, plus the 20-iteration bound. -/
theorem ensureValid_wait_poll_amended_witness :
    (ensureConnectionValid envWaitPool7 sRec =
      (.ok 7, MState.mk (some 7) (some cfgA) false (some 0) 1 1 [0] 1 0,
       [Event.acquire 0 (some 2000), Event.sleep 100]))
    ∧ (ensureConnectionValid envWaitNoPool sRec2 =
      (.ok 10, MState.mk (some 10) (some cfgB) false (some 20) 11 21 [10, 5] 2 0,
       [Event.acquire 5 (some 2000), Event.sleep 100,
        Event.createPool 10 connectTimeoutMs, Event.acquire 10 none]))
    ∧ (ensureConnectionValid envFail sRec2 =
      (.error reconnectFailMsg,
       MState.mk none (some cfgB) false none 11 20 [5] 2 0,
       [Event.acquire 5 (some 2000), Event.createPool 10 connectTimeoutMs,
        Event.acquire 10 none, Event.endPool 10]))
    ∧ waitLoop (fun _ => true) 0 20 ≤ 20 :=
  ⟨(ensureValid_wait_poll_amended envWaitPool7 0 7 cfgA (some 0) 1 1 [0] 0 0).1
      rfl rfl,
   (ensureValid_wait_poll_amended envWaitNoPool 5 0 cfgB none 10 20 [5] 0 0).2.1
      rfl rfl rfl,
   (ensureValid_wait_poll_amended envFail 5 0 cfgB none 10 20 [5] 0 0).2.2.1
      rfl rfl rfl,
   (ensureValid_wait_poll_amended envFail 5 0 cfgB none 10 20 [5] 0 0).2.2.2
      (fun _ => true)⟩

/-- Claim C7, counterexample: after a successful `connect(cfgA)` a failed
`connect(cfgB)` leaves the pool null but does not cancel the running
heartbeat — the final state has `heartbeat = some 0` with `pool = none`,
violating the claimed "heartbeat non-null iff pool non-null" invariant. -/
theorem failed_connect_leaves_stale_heartbeat_cex :
    connect envFirstOnly (connect envFirstOnly initState cfgA).2.1 cfgB =
      (.error transportErrMsg,
       MState.mk none (some cfgB) false (some 0) 2 1 [0] 2 0,
       [Event.createPool 1 connectTimeoutMs, Event.acquire 1 none,
        Event.endPool 1]) :=
  rfl

/-- Claim C7 as amended: a successful connect starts exactly one heartbeat
task alongside the pool, and `disconnect` cancels the heartbeat together
with the pool; but a connect attempt that fails its creation probe leaves
a previously running heartbeat in place with a null pool, and that stale
heartbeat only cancels itself on its next tick (which sees the null
pool). -/
theorem heartbeat_pool_lifecycle_amended (env : Env Nat) (p : Nat)
    (cOld cNew cfg : MySQLConfig) (c0 : Option MySQLConfig) (rec : Bool)
    (hb : Option Nat) (np nh : Nat) (ops : List Nat) (pc oc : Nat) (s : MState) :
    (env.probe pc = true →
      connect env (MState.mk none c0 rec hb np nh ops pc oc) cfg =
        (.ok (),
         MState.mk (some np) (some cfg) rec (some nh) (np + 1) (nh + 1) (np :: ops)
           (pc + 1) oc,
         [Event.createPool np connectTimeoutMs, Event.acquire np none]))
    ∧ ((disconnect s).1.heartbeat = none ∧ (disconnect s).1.pool = none)
    ∧ (sameTarget cOld cNew = false → env.probe pc = false →
      (connect env (MState.mk (some p) (some cOld) rec hb np nh ops pc oc) cNew).2.1.pool
          = none
      ∧ (connect env
            (MState.mk (some p) (some cOld) rec hb np nh ops pc oc) cNew).2.1.heartbeat
          = hb)
    ∧ (performHeartbeat env (MState.mk none c0 rec hb np nh ops pc oc)).1.heartbeat
        = none := by
  refine ⟨?_, ?_, ?_, ?_⟩
  · intro h1
    simp [connect, connectFresh, takeProbe, startHeartbeat, stopHeartbeat, h1]
  · cases hsp : s.pool <;> simp [disconnect, stopHeartbeat, hsp]
  · intro h1 h2
    simp [connect, connectFresh, takeProbe, h1, h2]
  · simp [performHeartbeat, stopHeartbeat]

/-- Witness for the amended C7: fresh connect starts heartbeat 0,
`disconnect` clears both fields, the failed connect preserves heartbeat 9
with a null pool, and a tick on a pool-less state cancels the timer. -/
theorem heartbeat_pool_lifecycle_amended_witness :
    (connect envAllOk initState cfgA =
      (.ok (), MState.mk (some 0) (some cfgA) false (some 0) 1 1 [0] 1 0,
       [Event.createPool 0 connectTimeoutMs, Event.acquire 0 none]))
    ∧ ((disconnect sConn).1.heartbeat = none ∧ (disconnect sConn).1.pool = none)
    ∧ ((connect envFail (MState.mk (some 0) (some cfgA) false (some 9) 1 1 [0] 0 0)
          cfgB).2.1.pool = none
       ∧ (connect envFail (MState.mk (some 0) (some cfgA) false (some 9) 1 1 [0] 0 0)
          cfgB).2.1.heartbeat = some 9)
    ∧ (performHeartbeat envAllOk (MState.mk none none false (some 3) 0 0 [] 0 0)).1.heartbeat
        = none :=
  ⟨(heartbeat_pool_lifecycle_amended envAllOk 0 cfgA cfgB cfgA none false none 0 0 []
      0 0 sConn).1 rfl,
   (heartbeat_pool_lifecycle_amended envAllOk 0 cfgA cfgB cfgA none false none 0 0 []
      0 0 sConn).2.1,
   (heartbeat_pool_lifecycle_amended envFail 0 cfgA cfgB cfgA none false (some 9) 1 1
      [0] 0 0 sConn).2.2.1 (by decide) rfl,
   (heartbeat_pool_lifecycle_amended envAllOk 0 cfgA cfgB cfgA none false (some 3) 0 0
      [] 0 0 sConn).2.2.2⟩

/-- Claim C8: the heartbeat interval is the fixed 60 s constant; a tick
whose probe succeeds leaves the state unchanged (still Running); a tick
whose probe fails triggers a reconnection bound to the current config —
if that reconnection fails the heartbeat timer is cancelled (Idle), and
if it succeeds a fresh pool and heartbeat are installed (still
Running). -/
theorem heartbeat_tick_probe_and_heal (env : Env Nat) (p h : Nat)
    (cfg : MySQLConfig) (rec : Bool) (np nh : Nat) (ops : List Nat)
    (pc oc : Nat) :
    HEARTBEAT_INTERVAL = 60 * 1000
    ∧ (env.probe pc = true → env.probe (pc + 1) = true →
        performHeartbeat env (MState.mk (some p) (some cfg) rec (some h) np nh ops pc oc) =
          (MState.mk (some p) (some cfg) rec (some h) np nh ops (pc + 2) oc,
           [Event.acquire p (some 5000), Event.ping p none]))
    ∧ (env.probe pc = false → env.probe (pc + 1) = false →
        performHeartbeat env (MState.mk (some p) (some cfg) false (some h) np nh ops pc oc) =
          (MState.mk none (some cfg) false none (np + 1) nh (ops.erase p) (pc + 2) oc,
           [Event.acquire p (some 5000), Event.endPool p,
            Event.createPool np connectTimeoutMs, Event.acquire np none,
            Event.endPool np]))
    ∧ (env.probe pc = false → env.probe (pc + 1) = true →
        performHeartbeat env (MState.mk (some p) (some cfg) false (some h) np nh ops pc oc) =
          (MState.mk (some np) (some cfg) false (some nh) (np + 1) (nh + 1)
             (np :: ops.erase p) (pc + 2) oc,
           [Event.acquire p (some 5000), Event.endPool p,
            Event.createPool np connectTimeoutMs, Event.acquire np none])) := by
  refine ⟨rfl, ?_, ?_, ?_⟩ <;> intro h1 h2 <;>
    simp [performHeartbeat, heartbeatReconnect, takeProbe, stopHeartbeat, startHeartbeat,
          connect, connectFresh, h1, h2]

/-- Witness for C8: the three tick outcomes on the concrete connected
state. -/
theorem heartbeat_tick_probe_and_heal_witness :
    HEARTBEAT_INTERVAL = 60 * 1000
    ∧ (performHeartbeat envAllOk sConn =
        (MState.mk (some 0) (some cfgA) false (some 0) 1 1 [0] 2 0,
         [Event.acquire 0 (some 5000), Event.ping 0 none]))
    ∧ (performHeartbeat envFail sConn =
        (MState.mk none (some cfgA) false none 2 1 [] 2 0,
         [Event.acquire 0 (some 5000), Event.endPool 0,
          Event.createPool 1 connectTimeoutMs, Event.acquire 1 none,
          Event.endPool 1]))
    ∧ (performHeartbeat envFailThenOk sConn =
        (MState.mk (some 1) (some cfgA) false (some 1) 2 2 [1] 2 0,
         [Event.acquire 0 (some 5000), Event.endPool 0,
          Event.createPool 1 connectTimeoutMs, Event.acquire 1 none])) :=
  ⟨(heartbeat_tick_probe_and_heal envAllOk 0 0 cfgA false 1 1 [0] 0 0).1,
   (heartbeat_tick_probe_and_heal envAllOk 0 0 cfgA false 1 1 [0] 0 0).2.1 rfl rfl,
   (heartbeat_tick_probe_and_heal envFail 0 0 cfgA false 1 1 [0] 0 0).2.2.1 rfl rfl,
   (heartbeat_tick_probe_and_heal envFailThenOk 0 0 cfgA false 1 1 [0] 0 0).2.2.2
      rfl rfl⟩

/-- Claim C9, counterexample: in a concrete `execute` run the trace of
suspension events contains `opRun 0 none` — the execution of the
caller-supplied query operation carries no explicit timeout, so not every
suspension point is guarded. -/
theorem caller_op_unguarded_cex :
    (execute envDup sConn).2.2 =
      [Event.acquire 0 (some 2000), Event.ping 0 (some 3000), Event.opRun 0 none]
    ∧ ((execute envDup sConn).2.2.all guarded) = false :=
  ⟨rfl, rfl⟩

/-- Claim C9 as amended: pool open carries the 10 s connect timeout, the
validity probe's acquisition and query carry 2 s and 3 s timeouts, and the
reconnection wait-poll is bounded by its 20 iterations of 100 ms; the
caller-supplied operation itself, however, runs with no explicit timeout
(`opRun _ none`). -/
theorem suspension_timeouts_amended (env : Env Nat) (p : Nat)
    (cfg : MySQLConfig) (c0 : Option MySQLConfig) (rec : Bool)
    (hb : Option Nat) (np nh : Nat) (ops : List Nat) (pc oc : Nat) :
    connectTimeoutMs = 10000
    ∧ (∀ (f : Nat → Bool) (k fuel : Nat), waitLoop f k fuel ≤ k + fuel)
    ∧ (env.probe pc = true → env.probe (pc + 1) = true →
        attemptOnce env (MState.mk (some p) (some cfg) rec hb np nh ops pc oc) =
          (env.op oc,
           MState.mk (some p) (some cfg) rec hb np nh ops (pc + 2) (oc + 1),
           [Event.acquire p (some 2000), Event.ping p (some 3000),
            Event.opRun oc none]))
    ∧ (env.probe pc = true →
        connect env (MState.mk none c0 rec hb np nh ops pc oc) cfg =
          (.ok (),
           MState.mk (some np) (some cfg) rec (some nh) (np + 1) (nh + 1) (np :: ops)
             (pc + 1) oc,
           [Event.createPool np connectTimeoutMs, Event.acquire np none])) := by
  refine ⟨rfl, fun f k fuel => waitLoop_le f k fuel, ?_, ?_⟩
  · intro h1 h2
    simp [attemptOnce, ensureConnectionValid, takeProbe, takeOp, h1, h2]
  · intro h1
    simp [connect, connectFresh, takeProbe, startHeartbeat, stopHeartbeat, h1]

/-- Witness for the amended C9 on concrete data: the guarded and unguarded
suspension points of one validated attempt and one pool open. -/
theorem suspension_timeouts_amended_witness :
    connectTimeoutMs = 10000
    ∧ waitLoop (fun _ => true) 3 20 ≤ 23
    ∧ (attemptOnce envDup sConn =
        (.error "Duplicate entry x for key PRIMARY",
         MState.mk (some 0) (some cfgA) false (some 0) 1 1 [0] 2 1,
         [Event.acquire 0 (some 2000), Event.ping 0 (some 3000),
          Event.opRun 0 none]))
    ∧ (connect envDup initState cfgA =
        (.ok (), MState.mk (some 0) (some cfgA) false (some 0) 1 1 [0] 1 0,
         [Event.createPool 0 connectTimeoutMs, Event.acquire 0 none])) :=
  ⟨(suspension_timeouts_amended envDup 0 cfgA none false none 0 0 [] 0 0).1,
   (suspension_timeouts_amended envDup 0 cfgA none false none 0 0 [] 0 0).2.1
      (fun _ => true) 3 20,
   (suspension_timeouts_amended envDup 0 cfgA none false (some 0) 1 1 [0] 0 0).2.2.1
      rfl rfl,
   (suspension_timeouts_amended envDup 0 cfgA none false none 0 0 [] 0 0).2.2.2
      rfl⟩
